import Mathlib

/-!
Verification of the FinanzaSim quarterly financial simulation engine and
session state machine, shallowly embedded from the Python sources
(`finanzasim/constants.py`, `finanzasim/financial_calculator.py`,
`finanzasim/cfa_questions.py`, `finanzasim/session_service.py`, `main.py`).

Python floats are modelled as exact rationals (`ℚ`); the IEEE value
`float("inf")` used by `calculate_ratios` is modelled by the two-constructor
type `ExtRat`.  Python dicts of numbers are modelled as association lists
`List (String × ℚ)`; the fallible dataclass construction
`Decision(**decision)` (a `TypeError` when the dict does not have exactly the
keys `production`, `price`, `marketing`) is modelled by the `Option`-valued
`mkDecision`.
-/

namespace FinanzaSim

/-- Structure `SimulationConstants` from `finanzasim/constants.py` (a frozen dataclass
whose fields all carry defaults). -/
structure SimulationConstants where
  cost_per_unit : ℚ := 25
  fixed_opex : ℚ := 10000
  tax_rate : ℚ := 0.20
  base_demand : ℚ := 1200
  marketing_effect_per_dollar : ℚ := 0.1
  price_elasticity : ℚ := 20
  reference_price : ℚ := 50

/-- Constant `SIMULATION_CONSTANTS = SimulationConstants()` from
`finanzasim/constants.py`. -/
def SIMULATION_CONSTANTS : SimulationConstants := {}

/-- The `Decision` dataclass of `finanzasim/financial_calculator.py`:
three required fields, no defaults. -/
structure Decision where
  production : ℚ
  price : ℚ
  marketing : ℚ
  deriving DecidableEq, Repr

/-- A Python float that may be `float("inf")`: every other value reached by
the program is a finite rational. -/
inductive ExtRat where
  | inf : ExtRat
  | fin : ℚ → ExtRat
  deriving DecidableEq, Repr

/-- The `FinancialSnapshot` dataclass of
`finanzasim/financial_calculator.py`.  Field defaults mirror the Python
defaults (`0.0`, with `liquidity_ratio` starting as the finite float `0.0`). -/
structure FinancialSnapshot where
  quarter : ℕ
  cash : ℚ
  inventory : ℚ
  equity : ℚ
  debt : ℚ := 0
  revenue : ℚ := 0
  cogs : ℚ := 0
  gross_profit : ℚ := 0
  operating_expenses : ℚ := 0
  ebit : ℚ := 0
  taxes : ℚ := 0
  net_income : ℚ := 0
  units_sold : ℚ := 0
  liquidity_ratio : ExtRat := ExtRat.fin 0
  net_margin : ℚ := 0
  price : ℚ := 0
  marketing : ℚ := 0
  production : ℚ := 0
  deriving DecidableEq, Repr

/-- Function `calculate_demand` from `finanzasim/financial_calculator.py`. -/
def calculate_demand (decision : Decision) : ℚ :=
  let price_effect := (SIMULATION_CONSTANTS.reference_price - decision.price) *
    SIMULATION_CONSTANTS.price_elasticity
  let marketing_effect := decision.marketing * SIMULATION_CONSTANTS.marketing_effect_per_dollar
  let raw_demand := SIMULATION_CONSTANTS.base_demand + price_effect + marketing_effect
  max 0 raw_demand

/-- Function `calculate_ratios` from `finanzasim/financial_calculator.py`: returns the
pair (liquidity_ratio, net_margin) with the division-by-zero guards of the
source (`float("inf")` when debt is zero, `0` when revenue is zero). -/
def calculate_ratios (financial_snapshot : FinancialSnapshot) : ExtRat × ℚ :=
  let current_assets := financial_snapshot.cash + financial_snapshot.inventory
  let current_liabilities := financial_snapshot.debt
  let liquidity_ratio : ExtRat :=
    if current_liabilities = 0 then ExtRat.inf
    else ExtRat.fin (current_assets / current_liabilities)
  let net_margin : ℚ :=
    if financial_snapshot.revenue = 0 then 0
    else financial_snapshot.net_income / financial_snapshot.revenue
  (liquidity_ratio, net_margin)

/-- The body of `simulate_quarter` from `finanzasim/financial_calculator.py`
after the `Decision(**decision)` construction has succeeded (lines 55-97 of
the source).  Only the `quarter`, `cash`, `inventory` and `equity` fields of
`previous` are read, exactly as in the Python code. -/
def simulate_quarter_core (previous : FinancialSnapshot) (decision_obj : Decision) :
    FinancialSnapshot :=
  let demand := calculate_demand decision_obj
  let available_units := decision_obj.production + previous.inventory
  let units_sold := min demand available_units
  let revenue := units_sold * decision_obj.price
  let cogs := units_sold * SIMULATION_CONSTANTS.cost_per_unit
  let gross_profit := revenue - cogs
  let operating_expenses := SIMULATION_CONSTANTS.fixed_opex + decision_obj.marketing
  let ebit := gross_profit - operating_expenses
  let taxes := max 0 (ebit * SIMULATION_CONSTANTS.tax_rate)
  let net_income := ebit - taxes
  let cash_change := revenue - decision_obj.production * SIMULATION_CONSTANTS.cost_per_unit -
    operating_expenses
  let new_cash := previous.cash + cash_change
  let debt := max 0 (-new_cash)
  let adjusted_cash := max 0 new_cash
  let new_inventory := previous.inventory + decision_obj.production - units_sold
  let new_equity := previous.equity + net_income
  let snapshot : FinancialSnapshot :=
    { quarter := previous.quarter + 1
      revenue := revenue
      cogs := cogs
      gross_profit := gross_profit
      operating_expenses := operating_expenses
      ebit := ebit
      taxes := taxes
      net_income := net_income
      cash := adjusted_cash
      inventory := new_inventory
      debt := debt
      equity := new_equity
      units_sold := units_sold
      production := decision_obj.production
      price := decision_obj.price
      marketing := decision_obj.marketing }
  let ratios := calculate_ratios snapshot
  { snapshot with liquidity_ratio := ratios.1, net_margin := ratios.2 }

/-- A Python number dict, e.g. a loosely-typed decision mapping. -/
abbrev NumDict := List (String × ℚ)

/-- Python `d.get(key, default)` on a Python number dict. -/
def dictGetD (d : NumDict) (key : String) (default : ℚ) : ℚ :=
  (d.lookup key).getD default

/-- Construction `Decision(**decision)`: it succeeds exactly when the dict carries the keys
`production`, `price` and `marketing` and no others (otherwise the Python
dataclass constructor raises `TypeError`). -/
def mkDecision (d : NumDict) : Option Decision :=
  match d.lookup "production", d.lookup "price", d.lookup "marketing" with
  | some production, some price, some marketing =>
      if (d.map Prod.fst).all
          (fun k => k == "production" || k == "price" || k == "marketing") then
        some { production := production, price := price, marketing := marketing }
      else none
  | _, _, _ => none

/-- Function `simulate_quarter` from `finanzasim/financial_calculator.py`: constructs
the `Decision` object from the dict (possibly failing with a `TypeError`,
modelled by `none`), then runs the arithmetic pass. -/
def simulate_quarter (previous : FinancialSnapshot) (decision : NumDict) :
    Option FinancialSnapshot :=
  (mkDecision decision).map (simulate_quarter_core previous)

/-- The `QuestionOption` frozen dataclass of `finanzasim/cfa_questions.py`. -/
structure QuestionOption where
  id : String
  text : String
  impact : NumDict
  deriving DecidableEq, Repr

/-- The `Question` frozen dataclass of `finanzasim/cfa_questions.py`. -/
structure Question where
  id : String
  prompt : String
  options : List QuestionOption
  deriving DecidableEq, Repr

/-- Function `apply_option_impact` from `finanzasim/cfa_questions.py`: returns a new
decision dict adjusted by the option's impact factors; each tracked field is
clamped at zero, missing decision fields default to 0, missing multipliers
default to 1 and missing deltas to 0. -/
def apply_option_impact (decision : NumDict) (opt : QuestionOption) : NumDict :=
  let production := max 0
    (dictGetD decision "production" 0 * dictGetD opt.impact "production_multiplier" 1 +
      dictGetD opt.impact "production_delta" 0)
  let price := max 0
    (dictGetD decision "price" 0 * dictGetD opt.impact "price_multiplier" 1 +
      dictGetD opt.impact "price_delta" 0)
  let marketing := max 0
    (dictGetD decision "marketing" 0 * dictGetD opt.impact "marketing_multiplier" 1 +
      dictGetD opt.impact "marketing_delta" 0)
  [("production", production), ("price", price), ("marketing", marketing)]

/-- The dict view of a structured `Decision`, in the key order produced by
`apply_option_impact` and by the `submit_decision` endpoint of `main.py`. -/
def Decision.toDict (d : Decision) : NumDict :=
  [("production", d.production), ("price", d.price), ("marketing", d.marketing)]

/-- Catalog `QUESTION_BANK` from `finanzasim/cfa_questions.py`: the fixed catalog of
20 scenario questions, transcribed with their ids, prompts, option ids,
option texts and impact maps. -/
def QUESTION_BANK : List Question := [
  { id := "q01",
    prompt := "Un comité de riesgos propone cubrir la exposición cambiaria elevando el precio en 2%. ¿Cómo respondes?",
    options := [
      { id := "A", text := "Aceptas el aumento para proteger margen",
        impact := [("price_delta", 1.0)] },
      { id := "B", text := "Mantienes precio y refuerzas marketing para ganar cuota",
        impact := [("marketing_multiplier", 1.25)] },
      { id := "C", text := "Reducir producción para priorizar liquidez",
        impact := [("production_multiplier", 0.9)] }] },
  { id := "q02",
    prompt := "El equipo de ventas pide un descuento táctico del 5% por trimestre para cerrar contratos grandes.",
    options := [
      { id := "A", text := "Aprobado: descuento completo",
        impact := [("price_multiplier", 0.95)] },
      { id := "B", text := "Descuento parcial y más volumen",
        impact := [("price_multiplier", 0.97), ("production_multiplier", 1.05)] },
      { id := "C", text := "Sin descuento, en su lugar branding",
        impact := [("marketing_multiplier", 1.2)] }] },
  { id := "q03",
    prompt := "Finanzas advierte sobre capital de trabajo tensionado. Se sugiere recortar marketing un 20%.",
    options := [
      { id := "A", text := "Aceptas el recorte para liberar caja",
        impact := [("marketing_multiplier", 0.8)] },
      { id := "B", text := "Mantienes marketing pero bajas producción",
        impact := [("production_multiplier", 0.9)] },
      { id := "C", text := "Contrarrestas con subida de precio",
        impact := [("price_delta", 2.0)] }] },
  { id := "q04",
    prompt := "Un proveedor ofrece pago anticipado con 3% de descuento en costo unitario si produces más.",
    options := [
      { id := "A", text := "Incrementas producción para capturar descuento",
        impact := [("production_multiplier", 1.15)] },
      { id := "B", text := "Mantienes producción y reservas liquidez",
        impact := [("production_multiplier", 1.0)] },
      { id := "C", text := "Bajas precio para rotar inventario",
        impact := [("price_multiplier", 0.98)] }] },
  { id := "q05",
    prompt := "Marketing propone campaña digital adicional. Requiere +$500 y promete +8% en demanda.",
    options := [
      { id := "A", text := "Apruebas la campaña completa",
        impact := [("marketing_delta", 500.0)] },
      { id := "B", text := "Aprobación parcial y subes precio 1%",
        impact := [("marketing_delta", 250.0), ("price_multiplier", 1.01)] },
      { id := "C", text := "Rechazas y reasignas a producción",
        impact := [("production_multiplier", 1.05)] }] },
  { id := "q06",
    prompt := "Se detecta obsolescencia en inventario. Se propone rebaja temporal del 3% en precio.",
    options := [
      { id := "A", text := "Aplicar rebaja total",
        impact := [("price_multiplier", 0.97)] },
      { id := "B", text := "Rebaja parcial y más marketing de liquidación",
        impact := [("price_multiplier", 0.985), ("marketing_multiplier", 1.15)] },
      { id := "C", text := "Sin rebaja, ajustas producción a la baja",
        impact := [("production_multiplier", 0.9)] }] },
  { id := "q07",
    prompt := "El director comercial sugiere producir 10% más para evitar roturas de stock en Q4.",
    options := [
      { id := "A", text := "Sigues la recomendación",
        impact := [("production_multiplier", 1.1)] },
      { id := "B", text := "Producción neutra y refuerzo de marketing",
        impact := [("marketing_multiplier", 1.1)] },
      { id := "C", text := "Moderación: +5% producción y precio +1",
        impact := [("production_multiplier", 1.05), ("price_delta", 1.0)] }] },
  { id := "q08",
    prompt := "Una auditoría ESG sugiere invertir en eficiencia, reduciendo OPEX futuro pero elevando marketing ahora.",
    options := [
      { id := "A", text := "Incrementas marketing para visibilidad ESG",
        impact := [("marketing_multiplier", 1.3)] },
      { id := "B", text := "Subes precio 2% para financiar la iniciativa",
        impact := [("price_multiplier", 1.02)] },
      { id := "C", text := "Aplazas la iniciativa y mantienes estructura actual",
        impact := [] }] },
  { id := "q09",
    prompt := "Competencia lanza producto sustituto 4% más barato. ¿Cuál es tu respuesta?",
    options := [
      { id := "A", text := "Igualas el precio y subes marketing",
        impact := [("price_multiplier", 0.96), ("marketing_multiplier", 1.2)] },
      { id := "B", text := "Mantienes precio, refuerzas valor percibido",
        impact := [("marketing_multiplier", 1.1)] },
      { id := "C", text := "Reduces producción para evitar excedentes",
        impact := [("production_multiplier", 0.92)] }] },
  { id := "q10",
    prompt := "El CFO sugiere priorizar flujo de caja, proponiendo bajar marketing 10% y precio +1%.",
    options := [
      { id := "A", text := "Sigues la recomendación",
        impact := [("marketing_multiplier", 0.9), ("price_delta", 1.0)] },
      { id := "B", text := "Solo aplicas la subida de precio",
        impact := [("price_delta", 1.0)] },
      { id := "C", text := "Prefieres impulsar volumen con más producción",
        impact := [("production_multiplier", 1.08)] }] },
  { id := "q11",
    prompt := "Recibes una línea de crédito barata para financiar crecimiento. ¿Cómo la usas?",
    options := [
      { id := "A", text := "Escalas producción 15%",
        impact := [("production_multiplier", 1.15)] },
      { id := "B", text := "Campaña masiva de marketing",
        impact := [("marketing_multiplier", 1.4)] },
      { id := "C", text := "Equilibrio: +5% precio y +5% marketing",
        impact := [("price_multiplier", 1.05), ("marketing_multiplier", 1.05)] }] },
  { id := "q12",
    prompt := "Clientes corporativos piden contratos a plazo con descuento pero pagos adelantados.",
    options := [
      { id := "A", text := "Aceptas descuento 2% para asegurar volumen",
        impact := [("price_multiplier", 0.98), ("production_multiplier", 1.07)] },
      { id := "B", text := "Rechazas descuento y mantienes mix actual",
        impact := [] },
      { id := "C", text := "Compensas con campaña de upselling",
        impact := [("marketing_multiplier", 1.15)] }] },
  { id := "q13",
    prompt := "El comité de auditoría sugiere construir inventario defensivo ante riesgo de supply chain.",
    options := [
      { id := "A", text := "Construyes inventario: +12% producción",
        impact := [("production_multiplier", 1.12)] },
      { id := "B", text := "Producción neutra, reservas liquidez",
        impact := [] },
      { id := "C", text := "Optimización: +5% producción y +1 en precio",
        impact := [("production_multiplier", 1.05), ("price_delta", 1.0)] }] },
  { id := "q14",
    prompt := "Se detecta caída en ROI de marketing. Se proponen recortes y reorientación a pricing.",
    options := [
      { id := "A", text := "Recortas 15% marketing y subes precio 1%",
        impact := [("marketing_multiplier", 0.85), ("price_multiplier", 1.01)] },
      { id := "B", text := "Mantienes marketing y subes producción",
        impact := [("production_multiplier", 1.08)] },
      { id := "C", text := "Experimentas: +5% marketing con storytelling ESG",
        impact := [("marketing_multiplier", 1.05)] }] },
  { id := "q15",
    prompt := "El consejo pide acelerar ROE mediante mayor apalancamiento operativo.",
    options := [
      { id := "A", text := "Subes producción 18%",
        impact := [("production_multiplier", 1.18)] },
      { id := "B", text := "Subes precio 3% para mejorar margen",
        impact := [("price_multiplier", 1.03)] },
      { id := "C", text := "Blend: +8% producción y +1% precio",
        impact := [("production_multiplier", 1.08), ("price_multiplier", 1.01)] }] },
  { id := "q16",
    prompt := "Se plantea reducción táctica de inventario para liberar capital de trabajo.",
    options := [
      { id := "A", text := "Bajas producción 12%",
        impact := [("production_multiplier", 0.88)] },
      { id := "B", text := "Aumentas precio 2% para frenar ventas menos rentables",
        impact := [("price_multiplier", 1.02)] },
      { id := "C", text := "Más marketing para acelerar rotación",
        impact := [("marketing_multiplier", 1.18)] }] },
  { id := "q17",
    prompt := "Una encuesta revela sensibilidad al precio menor a la estimada. ¿Cómo capturas valor?",
    options := [
      { id := "A", text := "Incrementas precio 4%",
        impact := [("price_multiplier", 1.04)] },
      { id := "B", text := "Mantienes precio y elevas marketing premium",
        impact := [("marketing_multiplier", 1.25)] },
      { id := "C", text := "Subes producción para aprovechar demanda",
        impact := [("production_multiplier", 1.1)] }] },
  { id := "q18",
    prompt := "La tesorería detecta exceso de caja no asignada. Se sugiere invertir en crecimiento orgánico.",
    options := [
      { id := "A", text := "Financias marketing intensivo",
        impact := [("marketing_multiplier", 1.35)] },
      { id := "B", text := "Rebajas precio 2% para impulsar volumen",
        impact := [("price_multiplier", 0.98)] },
      { id := "C", text := "Balanceas: +6% producción y +1% precio",
        impact := [("production_multiplier", 1.06), ("price_multiplier", 1.01)] }] },
  { id := "q19",
    prompt := "La Junta evalúa expandir a un nicho premium con menor elasticidad de precio.",
    options := [
      { id := "A", text := "Estrategia premium: +6% precio, marketing +10%",
        impact := [("price_multiplier", 1.06), ("marketing_multiplier", 1.1)] },
      { id := "B", text := "Piloto moderado: +3% precio y producción estable",
        impact := [("price_multiplier", 1.03)] },
      { id := "C", text := "Esperas datos, priorizas liquidez",
        impact := [("production_multiplier", 0.95)] }] },
  { id := "q20",
    prompt := "Un comité de supply chain recomienda horas extra para aprovechar capacidad ociosa.",
    options := [
      { id := "A", text := "Aumentas producción 20%",
        impact := [("production_multiplier", 1.2)] },
      { id := "B", text := "Producción +10% y marketing +5%",
        impact := [("production_multiplier", 1.1), ("marketing_multiplier", 1.05)] },
      { id := "C", text := "No cambias producción, subes precio 1%",
        impact := [("price_multiplier", 1.01)] }] }]

/-- Index `QUESTION_INDEX` from `finanzasim/cfa_questions.py`: catalog lookup by
question id (the ids in `QUESTION_BANK` are pairwise distinct, so first-match
lookup agrees with the Python dict comprehension). -/
def QUESTION_INDEX (question_id : String) : Option Question :=
  QUESTION_BANK.find? (fun q => q.id == question_id)

/-- A placeholder question used only to totalise list indexing in the model
of `random.choice`; it is never returned because the choice pool is never
empty. -/
def defaultQuestion : Question := { id := "", prompt := "", options := [] }

/-- The pool `random.choice` draws from in `pick_random_question` (lines
47-49 of `finanzasim/cfa_questions.py`): the catalog filtered by the
exclusion list, falling back to the whole catalog when the filter leaves
nothing. -/
def pick_pool (exclude_ids : List String) : List Question :=
  let available := QUESTION_BANK.filter (fun q => !(exclude_ids.contains q.id))
  if available.isEmpty then QUESTION_BANK else available

/-- Function `pick_random_question` from `finanzasim/cfa_questions.py`.  The draw of
`random.choice(available)` is modelled by an arbitrary natural number `r`
reduced modulo the pool size, so theorems quantified over `r` cover every
possible draw. -/
def pick_random_question (r : ℕ) (exclude_ids : List String) : Question :=
  (pick_pool exclude_ids).getD (r % (pick_pool exclude_ids).length) defaultQuestion

/-- The quarter-0 seed state of the first worked example of the spec (also
the `INITIAL_FINANCIALS` entry of `main.py`). -/
def seedState : FinancialSnapshot :=
  { quarter := 0, cash := 50000, inventory := 1000, equity := 50000, debt := 0 }

/-- The low-cash seed state of the second worked example of the spec. -/
def lowCashState : FinancialSnapshot :=
  { quarter := 0, cash := 1000, inventory := 0, equity := 1000, debt := 0 }

/-- The `Company` dataclass of `finanzasim/session_service.py`.  The
`agent_chat` log is opaque to the core and modelled as a list of strings;
the Python `question_history: list | None = None` is modelled directly as a
list (`None` and `[]` are treated identically by every reader, which always
wraps the field in `list(company.question_history or [])`). -/
structure Company where
  name : String
  financials : List FinancialSnapshot
  decisions : NumDict
  agent_chat : List String
  active_question_id : Option String := none
  selected_option_id : Option String := none
  question_history : List String := []
  deriving DecidableEq, Repr

/-- The `Session` dataclass of `finanzasim/session_service.py`.  The company
mapping is modelled as an association list in Python-dict insertion order. -/
structure Session where
  id : String
  game_code : String
  game_status : String
  current_quarter : ℕ
  last_update_time : ℤ
  companies : List (String × Company)
  deriving DecidableEq, Repr

/-- Lines 91-95 of `finanzasim/session_service.py`: look the active question
up in `QUESTION_INDEX` and search its options for the company's selected
option id (Python's `option.id == company.selected_option_id` is false for
every option when no option was selected). -/
def resolve_selected_option (question_id : String) (selected_id : Option String) :
    Option QuestionOption :=
  match QUESTION_INDEX question_id with
  | some question => question.options.find? (fun o => some o.id == selected_id)
  | none => none

/-- Lines 97-99 of `finanzasim/session_service.py`: the effective decision is
the impact-transformed base decision when an option resolves, the unchanged
base decision otherwise. -/
def resolve_effective_decision (base_decision : NumDict) (question_id : String)
    (selected_id : Option String) : NumDict :=
  match resolve_selected_option question_id selected_id with
  | some opt => apply_option_impact base_decision opt
  | none => base_decision

/-- The per-company body of `SessionService.close_quarter` (lines 85-113 of
`finanzasim/session_service.py`).  `r` models the `random.choice` draw of the
defensive `pick_random_question()` fallback.  `none` models the two Python
exceptions this body can raise: `IndexError` from `company.financials[-1]` on
an empty history and `TypeError` from `Decision(**decision)` inside
`simulate_quarter` when the effective decision dict is malformed. -/
def close_company (company : Company) (r : ℕ) : Option Company :=
  match company.financials.getLast? with
  | none => none
  | some previous_financials =>
    let question_id := company.active_question_id.getD (pick_random_question r []).id
    let effective_decision := resolve_effective_decision company.decisions question_id
      company.selected_option_id
    match simulate_quarter previous_financials effective_decision with
    | none => none
    | some result =>
      let history := company.question_history
      let history := if history = [] ∨ history.getLast? ≠ some question_id then
        history ++ [question_id] else history
      some { name := company.name
             financials := company.financials ++ [result]
             decisions := []
             agent_chat := company.agent_chat
             active_question_id := none
             selected_option_id := none
             question_history := history }

/-- The company-map loop of `SessionService.close_quarter`, one independent
random draw per company. -/
def close_companies : List (String × Company) → List ℕ →
    Option (List (String × Company))
  | [], _ => some []
  | (company_id, company) :: rest, rs =>
    match close_company company (rs.headD 0), close_companies rest rs.tail with
    | some company', some rest' => some ((company_id, company') :: rest')
    | _, _ => none

/-- Method `SessionService.close_quarter` (lines 79-127 of
`finanzasim/session_service.py`) for a session already fetched from the
repository: process every company, then advance the quarter counter and
recompute the game status. -/
def close_quarter (session : Session) (rs : List ℕ) : Option Session :=
  (close_companies session.companies rs).map fun updated_companies =>
    let next_quarter := session.current_quarter + 1
    let game_status := if next_quarter > 4 then "Finished"
      else "Q" ++ toString next_quarter
    { session with
        game_status := game_status
        current_quarter := next_quarter
        companies := updated_companies }

/-- The per-company body of `SessionService.assign_quarter_questions` (lines
53-66 of `finanzasim/session_service.py`). -/
def assign_company (company : Company) (r : ℕ) : Company :=
  let history := company.question_history
  let question := pick_random_question r history
  { company with
      active_question_id := some question.id
      selected_option_id := none
      question_history := history ++ [question.id] }

/-- The company-map loop of `SessionService.assign_quarter_questions`. -/
def assign_companies : List (String × Company) → List ℕ → List (String × Company)
  | [], _ => []
  | (company_id, company) :: rest, rs =>
    (company_id, assign_company company (rs.headD 0)) :: assign_companies rest rs.tail

/-- Method `SessionService.assign_quarter_questions` (lines 47-77 of
`finanzasim/session_service.py`) for a session already fetched from the
repository: every field of the session except the company records is kept. -/
def assign_quarter_questions (session : Session) (rs : List ℕ) : Session :=
  { session with companies := assign_companies session.companies rs }

/-- The `submit_decision` endpoint of `main.py` for a session already fetched
from the repository: `none` when the company id is absent, otherwise the
session with that company's pending decision overwritten. -/
def submit_decision (session : Session) (company_id : String)
    (production price marketing : ℚ) : Option Session :=
  match session.companies.lookup company_id with
  | none => none
  | some _ => some { session with
      companies := session.companies.map fun p =>
        if p.1 = company_id then
          (p.1, { p.2 with decisions := [("production", production),
            ("price", price), ("marketing", marketing)] })
        else p }

/-- The `submit_answer` endpoint of `main.py` for a session already fetched
from the repository. -/
def submit_answer (session : Session) (company_id : String) (option_id : String) :
    Option Session :=
  match session.companies.lookup company_id with
  | none => none
  | some _ => some { session with
      companies := session.companies.map fun p =>
        if p.1 = company_id then
          (p.1, { p.2 with selected_option_id := some option_id })
        else p }

/-- The `close_quarter` endpoint of `main.py` (lines 171-186): close the
quarter, then assign fresh questions (and refresh the update time) only when
the resulting status is not "Finished". -/
def api_close_quarter (session : Session) (rs rs' : List ℕ) (now : ℤ) :
    Option Session :=
  (close_quarter session rs).map fun updated_session =>
    if updated_session.game_status ≠ "Finished" then
      { assign_quarter_questions updated_session rs' with last_update_time := now }
    else updated_session

/-- The game status `close_quarter` derives from a quarter counter. -/
def quarter_status (n : ℕ) : String :=
  if n > 4 then "Finished" else "Q" ++ toString n

/-- Position of a status string along the forward chain
Q1 → Q2 → Q3 → Q4 → Finished. -/
def statusRank (s : String) : ℕ :=
  if s = "Q1" then 1 else if s = "Q2" then 2 else if s = "Q3" then 3
  else if s = "Q4" then 4 else if s = "Finished" then 5 else 0

/-- A concrete company with a submitted decision, an active question and a
selected answer (mirroring the repository's own close-quarter test). -/
def testCompany : Company :=
  { name := "Gamma"
    financials := [seedState]
    decisions := [("production", 800), ("price", 52), ("marketing", 1000)]
    agent_chat := []
    active_question_id := some "q03"
    selected_option_id := some "A"
    question_history := ["q03"] }

/-- A concrete session sitting on quarter 4, about to finish. -/
def testSessionQ4 : Session :=
  { id := "s1", game_code := "CODE1", game_status := "Q4", current_quarter := 4,
    last_update_time := 0, companies := [("gamma", testCompany)] }

/-- A concrete already-finished session (quarter counter past 4). -/
def testSessionFinished : Session :=
  { id := "s3", game_code := "CODE3", game_status := "Finished",
    current_quarter := 5, last_update_time := 0,
    companies := [("gamma", testCompany)] }

/-- A concrete company that never submitted a decision (empty pending
decision dict) and selected no option. -/
def emptyDecisionCompany : Company :=
  { name := "Delta"
    financials := [seedState]
    decisions := []
    agent_chat := []
    active_question_id := some "q01"
    selected_option_id := none
    question_history := ["q01"] }

/-- A concrete session containing `emptyDecisionCompany`. -/
def emptyDecisionSession : Session :=
  { id := "s2", game_code := "CODE2", game_status := "Q1", current_quarter := 1,
    last_update_time := 0, companies := [("delta", emptyDecisionCompany)] }

/-- A concrete company with an empty pending decision that is nevertheless
closeable because it selected a valid option of its active question. -/
def rescuedCompany : Company :=
  { name := "Delta"
    financials := [seedState]
    decisions := []
    agent_chat := []
    active_question_id := some "q01"
    selected_option_id := some "A"
    question_history := ["q01"] }

/-- A concrete session pairing a company with a submitted decision and a
company rescued by its selected option. -/
def rescuedSession : Session :=
  { id := "s4", game_code := "CODE4", game_status := "Q1", current_quarter := 1,
    last_update_time := 0,
    companies := [("gamma", testCompany), ("delta", rescuedCompany)] }

/-- A concrete company in the natural state right after a quarter close:
pending decision cleared to the empty dict, no active question, no selected
option. -/
def finishedEmptyCompany : Company :=
  { name := "Gamma"
    financials := [seedState]
    decisions := []
    agent_chat := []
    active_question_id := none
    selected_option_id := none
    question_history := ["q03"] }

/-- A concrete already-finished session in the natural post-close state: the
final `close_quarter` left every company's pending decision empty and its
question fields cleared. -/
def finishedEmptySession : Session :=
  { id := "s5", game_code := "CODE5", game_status := "Finished",
    current_quarter := 5, last_update_time := 0,
    companies := [("gamma", finishedEmptyCompany)] }

end FinanzaSim

namespace FinanzaSim

/-- C1: `simulate_quarter` reproduces both worked examples of the spec: the
profitable case from the seed state with decision
{production 1500, price 55, marketing 2000}, and the short-term-debt case
from the low-cash state with decision {production 0, price 30, marketing 0},
field by field. -/
theorem simulate_quarter_worked_examples :
    (simulate_quarter seedState
        [("production", 1500), ("price", 55), ("marketing", 2000)] =
      some (simulate_quarter_core seedState
        { production := 1500, price := 55, marketing := 2000 })) ∧
    (let r := simulate_quarter_core seedState
        { production := 1500, price := 55, marketing := 2000 }
     r.quarter = 1 ∧ r.units_sold = 1300 ∧ r.revenue = 71500 ∧ r.cogs = 32500 ∧
       r.operating_expenses = 12000 ∧ r.ebit = 27000 ∧ r.taxes = 5400 ∧
       r.net_income = 21600 ∧ r.cash = 72000 ∧ r.inventory = 1200 ∧
       r.debt = 0 ∧ r.equity = 71600) ∧
    (simulate_quarter lowCashState
        [("production", 0), ("price", 30), ("marketing", 0)] =
      some (simulate_quarter_core lowCashState
        { production := 0, price := 30, marketing := 0 })) ∧
    (let r := simulate_quarter_core lowCashState
        { production := 0, price := 30, marketing := 0 }
     r.quarter = 1 ∧ r.units_sold = 0 ∧ r.net_income = -10000 ∧ r.cash = 0 ∧
       r.debt = 9000 ∧ r.equity = -9000 ∧
       r.liquidity_ratio = ExtRat.fin 0 ∧ r.net_margin = 0) := by
  refine ⟨rfl, ?_, rfl, ?_⟩ <;>
    norm_num [simulate_quarter_core, calculate_demand, calculate_ratios, seedState,
      lowCashState, SIMULATION_CONSTANTS, min_def, max_def]

/-- C2: for a previous state with nonnegative inventory and a decision with
nonnegative production, price and marketing, the snapshot's `units_sold` is
`min demand (production + previous.inventory)` where `demand` is the clamped
linear demand model, and `units_sold` is nonnegative. -/
theorem simulate_quarter_units_sold_spec (previous : FinancialSnapshot)
    (decision : Decision) (hinv : 0 ≤ previous.inventory)
    (hprod : 0 ≤ decision.production) (hprice : 0 ≤ decision.price)
    (hmkt : 0 ≤ decision.marketing) :
    (simulate_quarter_core previous decision).units_sold =
      min (calculate_demand decision) (decision.production + previous.inventory) ∧
    calculate_demand decision =
      max 0 (SIMULATION_CONSTANTS.base_demand +
        (SIMULATION_CONSTANTS.reference_price - decision.price) *
          SIMULATION_CONSTANTS.price_elasticity +
        decision.marketing * SIMULATION_CONSTANTS.marketing_effect_per_dollar) ∧
    0 ≤ (simulate_quarter_core previous decision).units_sold := by
  refine ⟨rfl, rfl, ?_⟩
  show 0 ≤ min (calculate_demand decision) (decision.production + previous.inventory)
  exact le_min (le_max_left 0 _) (add_nonneg hprod hinv)

/-- Closed instance of C2 at the seed state and the first worked decision. -/
theorem simulate_quarter_units_sold_spec_witness :
    (simulate_quarter_core seedState
        { production := 1500, price := 55, marketing := 2000 }).units_sold =
      min (calculate_demand { production := 1500, price := 55, marketing := 2000 })
        ((1500 : ℚ) + seedState.inventory) ∧
    calculate_demand { production := 1500, price := 55, marketing := 2000 } =
      max 0 (SIMULATION_CONSTANTS.base_demand +
        (SIMULATION_CONSTANTS.reference_price - 55) * SIMULATION_CONSTANTS.price_elasticity +
        2000 * SIMULATION_CONSTANTS.marketing_effect_per_dollar) ∧
    0 ≤ (simulate_quarter_core seedState
        { production := 1500, price := 55, marketing := 2000 }).units_sold :=
  simulate_quarter_units_sold_spec seedState
    { production := 1500, price := 55, marketing := 2000 }
    (by norm_num [seedState]) (by norm_num) (by norm_num) (by norm_num)

/-- C3: the snapshot's debt and cash are determined by the current quarter's
cash flow alone: with
`new_cash = previous.cash + revenue - production*cost_per_unit - operating_expenses`,
a negative `new_cash` becomes debt with cash zeroed, otherwise debt is zero
and cash is `new_cash`; both are always nonnegative; and the whole snapshot
is unchanged when the previous state is replaced by any state that agrees on
the four fields the engine reads (`quarter`, `cash`, `inventory`, `equity`) —
in particular `previous.debt` is never consulted. -/
theorem simulate_quarter_debt_cash_spec (previous : FinancialSnapshot)
    (decision : Decision) :
    (let r := simulate_quarter_core previous decision
     let new_cash := previous.cash +
       (r.revenue - decision.production * SIMULATION_CONSTANTS.cost_per_unit -
         r.operating_expenses)
     (new_cash < 0 → r.debt = -new_cash ∧ r.cash = 0) ∧
     (0 ≤ new_cash → r.debt = 0 ∧ r.cash = new_cash) ∧
     0 ≤ r.cash ∧ 0 ≤ r.debt) ∧
    (∀ p' : FinancialSnapshot, p'.quarter = previous.quarter →
      p'.cash = previous.cash → p'.inventory = previous.inventory →
      p'.equity = previous.equity →
      simulate_quarter_core p' decision = simulate_quarter_core previous decision) := by
  constructor
  · intro r new_cash
    have hdebt : r.debt = max 0 (-new_cash) := rfl
    have hcash : r.cash = max 0 new_cash := rfl
    refine ⟨?_, ?_, ?_, ?_⟩
    · intro hneg
      rw [hdebt, hcash]
      constructor
      · exact max_eq_right (by linarith)
      · exact max_eq_left (le_of_lt hneg)
    · intro hpos
      rw [hdebt, hcash]
      constructor
      · exact max_eq_left (by linarith)
      · exact max_eq_right hpos
    · rw [hcash]; exact le_max_left 0 _
    · rw [hdebt]; exact le_max_left 0 _
  · intro p' h1 h2 h3 h4
    unfold simulate_quarter_core
    rw [h1, h2, h3, h4]

/-- Closed instance of C3 at the low-cash state and the second worked
decision. -/
theorem simulate_quarter_debt_cash_spec_witness :
    (let r := simulate_quarter_core lowCashState
        { production := 0, price := 30, marketing := 0 }
     r.debt = -(lowCashState.cash +
       (r.revenue - 0 * SIMULATION_CONSTANTS.cost_per_unit - r.operating_expenses)) ∧
     r.cash = 0) ∧
    simulate_quarter_core seedState { production := 0, price := 30, marketing := 0 } =
      simulate_quarter_core
        { quarter := 0, cash := 50000, inventory := 1000, equity := 50000, debt := 12345 }
        { production := 0, price := 30, marketing := 0 } := by
  constructor
  · exact (simulate_quarter_debt_cash_spec lowCashState
      { production := 0, price := 30, marketing := 0 }).1.1
      (by norm_num [simulate_quarter_core, calculate_demand, calculate_ratios,
        lowCashState, SIMULATION_CONSTANTS, min_def, max_def])
  · exact ((simulate_quarter_debt_cash_spec seedState
      { production := 0, price := 30, marketing := 0 }).2
      { quarter := 0, cash := 50000, inventory := 1000, equity := 50000, debt := 12345 }
      rfl rfl rfl rfl).symm

/-- C8: both ratio computations are guarded: `calculate_ratios` yields the
zero fallback for `net_margin` when revenue is zero and the infinity fallback
for `liquidity_ratio` when debt is zero (and the true quotients otherwise),
and the snapshot produced by the engine carries exactly those guarded
values. -/
theorem calculate_ratios_guarded (s : FinancialSnapshot)
    (previous : FinancialSnapshot) (decision : Decision) :
    ((calculate_ratios s).2 = if s.revenue = 0 then 0 else s.net_income / s.revenue) ∧
    ((calculate_ratios s).1 = if s.debt = 0 then ExtRat.inf
      else ExtRat.fin ((s.cash + s.inventory) / s.debt)) ∧
    (let r := simulate_quarter_core previous decision
     (r.revenue = 0 → r.net_margin = 0) ∧
     (r.revenue ≠ 0 → r.net_margin = r.net_income / r.revenue) ∧
     (r.debt = 0 → r.liquidity_ratio = ExtRat.inf) ∧
     (r.debt ≠ 0 → r.liquidity_ratio = ExtRat.fin ((r.cash + r.inventory) / r.debt))) := by
  refine ⟨rfl, rfl, ?_⟩
  intro r
  have hnm : r.net_margin = if r.revenue = 0 then 0 else r.net_income / r.revenue := rfl
  have hlr : r.liquidity_ratio = if r.debt = 0 then ExtRat.inf
      else ExtRat.fin ((r.cash + r.inventory) / r.debt) := rfl
  refine ⟨?_, ?_, ?_, ?_⟩
  · intro h; rw [hnm, if_pos h]
  · intro h; rw [hnm, if_neg h]
  · intro h; rw [hlr, if_pos h]
  · intro h; rw [hlr, if_neg h]

/-- Helper: indexing any nonempty list at an index reduced modulo its length
stays inside the list. -/
theorem getD_mod_mem (l : List Question) (n : ℕ) (d : Question) (h : l ≠ []) :
    l.getD (n % l.length) d ∈ l := by
  have hlt : n % l.length < l.length := Nat.mod_lt _ (List.length_pos.2 h)
  rw [List.getD_eq_getElem l d hlt]
  exact List.getElem_mem hlt

/-- C4: the Decision Impact Transform computes, for each tracked field,
`max 0 (decision[field] * impact.get(field_multiplier, 1) +
impact.get(field_delta, 0))` with missing decision fields defaulting to 0;
on the base decision {production 1000, price 50, marketing 2000} with option
B of catalog question q02 it yields production 1050, price 48.5 and
marketing 2000; and with an empty impact map it is the identity on any
well-formed decision. -/
theorem apply_option_impact_spec :
    (∀ (decision : NumDict) (opt : QuestionOption),
      apply_option_impact decision opt =
        [("production", max 0 (dictGetD decision "production" 0 *
            dictGetD opt.impact "production_multiplier" 1 +
            dictGetD opt.impact "production_delta" 0)),
         ("price", max 0 (dictGetD decision "price" 0 *
            dictGetD opt.impact "price_multiplier" 1 +
            dictGetD opt.impact "price_delta" 0)),
         ("marketing", max 0 (dictGetD decision "marketing" 0 *
            dictGetD opt.impact "marketing_multiplier" 1 +
            dictGetD opt.impact "marketing_delta" 0))]) ∧
    (apply_option_impact [("production", 1000), ("price", 50), ("marketing", 2000)]
        (((QUESTION_INDEX "q02").getD defaultQuestion).options.getD 1
          { id := "", text := "", impact := [] }) =
      [("production", 1050), ("price", (48.5 : ℚ)), ("marketing", 2000)]) ∧
    (∀ (d : Decision) (oid otext : String), 0 ≤ d.production → 0 ≤ d.price →
      0 ≤ d.marketing →
      apply_option_impact d.toDict { id := oid, text := otext, impact := [] } =
        d.toDict) := by
  refine ⟨fun decision opt => rfl, ?_, ?_⟩
  · rw [show apply_option_impact [("production", 1000), ("price", 50), ("marketing", 2000)]
        (((QUESTION_INDEX "q02").getD defaultQuestion).options.getD 1
          { id := "", text := "", impact := [] }) =
        [("production", max 0 ((1000 : ℚ) * 1.05 + 0)),
         ("price", max 0 ((50 : ℚ) * 0.97 + 0)),
         ("marketing", max 0 ((2000 : ℚ) * 1 + 0))] from rfl]
    norm_num [max_def]
  · intro d oid otext hp hpr hm
    rw [show apply_option_impact d.toDict { id := oid, text := otext, impact := [] } =
        [("production", max 0 (d.production * 1 + 0)),
         ("price", max 0 (d.price * 1 + 0)),
         ("marketing", max 0 (d.marketing * 1 + 0))] from rfl]
    rw [mul_one, add_zero, mul_one, add_zero, mul_one, add_zero,
      max_eq_right hp, max_eq_right hpr, max_eq_right hm]
    rfl

/-- Closed instance of C4's identity clause at a concrete nonnegative
decision. -/
theorem apply_option_impact_spec_witness :
    apply_option_impact
        (Decision.toDict { production := 1000, price := 50, marketing := 2000 })
        { id := "C", text := "", impact := [] } =
      Decision.toDict { production := 1000, price := 50, marketing := 2000 } :=
  apply_option_impact_spec.2.2 { production := 1000, price := 50, marketing := 2000 }
    "C" "" (by norm_num) (by norm_num) (by norm_num)

/-- C7: for every possible draw `r` and every exclusion list,
`pick_random_question` returns a member of the fixed catalog; it never
returns an excluded question as long as some catalog question is not
excluded; and when the exclusion list covers the whole catalog it draws from
the entire catalog. -/
theorem pick_random_question_spec (r : ℕ) (exclude_ids : List String) :
    pick_random_question r exclude_ids ∈ QUESTION_BANK ∧
    ((∃ q ∈ QUESTION_BANK, q.id ∉ exclude_ids) →
      (pick_random_question r exclude_ids).id ∉ exclude_ids) ∧
    ((∀ q ∈ QUESTION_BANK, q.id ∈ exclude_ids) →
      pick_random_question r exclude_ids =
        QUESTION_BANK.getD (r % QUESTION_BANK.length) defaultQuestion) := by
  have hbank : QUESTION_BANK ≠ [] := by decide
  by_cases he : (QUESTION_BANK.filter (fun q => !(exclude_ids.contains q.id))).isEmpty
  · have hpool : pick_pool exclude_ids = QUESTION_BANK := by
      simp only [pick_pool, he, if_true]
    refine ⟨?_, ?_, ?_⟩
    · unfold pick_random_question
      rw [hpool]
      exact getD_mod_mem QUESTION_BANK r defaultQuestion hbank
    · rintro ⟨q, hq, hqid⟩
      exfalso
      have hmem : q ∈ QUESTION_BANK.filter (fun q => !(exclude_ids.contains q.id)) :=
        List.mem_filter.2 ⟨hq, by simpa using hqid⟩
      rw [List.isEmpty_iff] at he
      rw [he] at hmem
      exact absurd hmem (List.not_mem_nil q)
    · intro _
      unfold pick_random_question
      rw [hpool]
  · have hpool : pick_pool exclude_ids =
        QUESTION_BANK.filter (fun q => !(exclude_ids.contains q.id)) := by
      simp only [pick_pool]
      rw [if_neg he]
    have hne : QUESTION_BANK.filter (fun q => !(exclude_ids.contains q.id)) ≠ [] := by
      intro h
      rw [List.isEmpty_iff] at he
      exact he h
    have hmem : pick_random_question r exclude_ids ∈
        QUESTION_BANK.filter (fun q => !(exclude_ids.contains q.id)) := by
      unfold pick_random_question
      rw [hpool]
      exact getD_mod_mem _ r defaultQuestion hne
    refine ⟨List.mem_of_mem_filter hmem, ?_, ?_⟩
    · intro _
      have hpred := (List.mem_filter.1 hmem).2
      simpa using hpred
    · intro hall
      exfalso
      apply hne
      rw [List.filter_eq_nil_iff]
      intro q hq
      simpa using hall q hq

/-- Closed instance of C7: the draw avoids the excluded question q01, and an
instance of the full-coverage fallback obtained through the theorem. -/
theorem pick_random_question_spec_witness :
    (pick_random_question 0 ["q01"]).id ∉ (["q01"] : List String) ∧
    pick_random_question 5 (QUESTION_BANK.map Question.id) =
      QUESTION_BANK.getD (5 % QUESTION_BANK.length) defaultQuestion := by
  constructor
  · refine (pick_random_question_spec 0 ["q01"]).2.1
      ⟨QUESTION_BANK.getD (21 % QUESTION_BANK.length) defaultQuestion,
        getD_mod_mem QUESTION_BANK 21 defaultQuestion (by decide), ?_⟩
    rw [show (QUESTION_BANK.getD (21 % QUESTION_BANK.length) defaultQuestion).id =
      "q02" from rfl]
    decide
  · exact (pick_random_question_spec 5 (QUESTION_BANK.map Question.id)).2.2
      (fun q hq => List.mem_map_of_mem Question.id hq)

/-- Closed instance of C8: zero-revenue and nonzero-debt fallbacks at the
second worked example. -/
theorem calculate_ratios_guarded_witness :
    (calculate_ratios seedState).2 =
      (if seedState.revenue = 0 then 0
        else seedState.net_income / seedState.revenue) ∧
    (simulate_quarter_core lowCashState
      { production := 0, price := 30, marketing := 0 }).net_margin = 0 ∧
    (simulate_quarter_core lowCashState
        { production := 0, price := 30, marketing := 0 }).liquidity_ratio =
      ExtRat.fin
        (((simulate_quarter_core lowCashState
            { production := 0, price := 30, marketing := 0 }).cash +
          (simulate_quarter_core lowCashState
            { production := 0, price := 30, marketing := 0 }).inventory) /
         (simulate_quarter_core lowCashState
            { production := 0, price := 30, marketing := 0 }).debt) := by
  refine ⟨(calculate_ratios_guarded seedState lowCashState
    { production := 0, price := 30, marketing := 0 }).1, ?_, ?_⟩
  · exact (calculate_ratios_guarded seedState lowCashState
      { production := 0, price := 30, marketing := 0 }).2.2.1
      (by norm_num [simulate_quarter_core, calculate_demand, calculate_ratios,
        lowCashState, SIMULATION_CONSTANTS, min_def, max_def])
  · exact (calculate_ratios_guarded seedState lowCashState
      { production := 0, price := 30, marketing := 0 }).2.2.2.2.2
      (by norm_num [simulate_quarter_core, calculate_demand, calculate_ratios,
        lowCashState, SIMULATION_CONSTANTS, min_def, max_def])

/-- C6: at quarter close the effective decision fed to the Financial Engine
is the Decision Impact Transform of the base decision with the resolved
option when one matches `selected_option_id` on the active question, and the
unchanged base decision in every other case (no selection, invalid selection,
unknown question id) without any error; a resolved option always belongs to
the indexed question and matches the selection; and after closing, the
company's pending decision, active question and selected option are
cleared. -/
theorem close_quarter_effective_decision_spec :
    (∀ (base : NumDict) (qid : String) (sel : Option String)
        (opt : QuestionOption), resolve_selected_option qid sel = some opt →
      resolve_effective_decision base qid sel = apply_option_impact base opt) ∧
    (∀ (base : NumDict) (qid : String) (sel : Option String),
      resolve_selected_option qid sel = none →
      resolve_effective_decision base qid sel = base) ∧
    (∀ (qid : String) (sel : Option String) (opt : QuestionOption),
      resolve_selected_option qid sel = some opt →
      ∃ q, QUESTION_INDEX qid = some q ∧ opt ∈ q.options ∧ some opt.id = sel) ∧
    (∀ qid : String, resolve_selected_option qid none = none) ∧
    (∀ (c : Company) (r : ℕ) (c' : Company), close_company c r = some c' →
      c'.decisions = [] ∧ c'.active_question_id = none ∧
      c'.selected_option_id = none ∧
      ∃ previous result, c.financials.getLast? = some previous ∧
        simulate_quarter previous
          (resolve_effective_decision c.decisions
            (c.active_question_id.getD (pick_random_question r []).id)
            c.selected_option_id) = some result ∧
        c'.financials = c.financials ++ [result]) := by
  refine ⟨?_, ?_, ?_, ?_, ?_⟩
  · intro base qid sel opt h
    unfold resolve_effective_decision
    rw [h]
  · intro base qid sel h
    unfold resolve_effective_decision
    rw [h]
  · intro qid sel opt h
    unfold resolve_selected_option at h
    cases hq : QUESTION_INDEX qid with
    | none => rw [hq] at h; exact absurd h (by simp)
    | some q =>
      rw [hq] at h
      refine ⟨q, rfl, List.mem_of_find?_eq_some h, ?_⟩
      have hp := List.find?_some h
      simpa using hp
  · intro qid
    unfold resolve_selected_option
    cases QUESTION_INDEX qid with
    | none => rfl
    | some q =>
      rw [List.find?_eq_none]
      intro o ho
      simp
  · intro c r c' h
    cases hl : c.financials.getLast? with
    | none => simp [close_company, hl] at h
    | some previous =>
      cases hs : simulate_quarter previous
          (resolve_effective_decision c.decisions
            (c.active_question_id.getD (pick_random_question r []).id)
            c.selected_option_id) with
      | none =>
        unfold close_company at h
        rw [hl] at h
        simp only [hs] at h
        exact Option.noConfusion h
      | some result =>
        unfold close_company at h
        rw [hl] at h
        simp only [hs, Option.some.injEq] at h
        subst h
        exact ⟨rfl, rfl, rfl, previous, result, rfl, hs, rfl⟩

/-- Closed instance of C6: the resolved option of q03/A transforms the base
decision, and closing the concrete test company clears its pending fields. -/
theorem close_quarter_effective_decision_spec_witness :
    (resolve_effective_decision
        [("production", 800), ("price", 52), ("marketing", 1000)]
        "q03" (some "A") =
      apply_option_impact [("production", 800), ("price", 52), ("marketing", 1000)]
        (((QUESTION_INDEX "q03").getD defaultQuestion).options.getD 0
          { id := "", text := "", impact := [] })) ∧
    (∃ c', close_company testCompany 0 = some c' ∧ c'.decisions = [] ∧
      c'.active_question_id = none ∧ c'.selected_option_id = none) := by
  constructor
  · exact close_quarter_effective_decision_spec.1
      [("production", 800), ("price", 52), ("marketing", 1000)] "q03" (some "A")
      (((QUESTION_INDEX "q03").getD defaultQuestion).options.getD 0
        { id := "", text := "", impact := [] }) rfl
  · obtain ⟨h1, h2, h3, _⟩ :=
      close_quarter_effective_decision_spec.2.2.2.2 testCompany 0 _ rfl
    exact ⟨_, rfl, h1, h2, h3⟩

/-- Helper: advancing the quarter counter never lowers the rank of the
derived status along Q1 → Q2 → Q3 → Q4 → Finished. -/
theorem statusRank_quarter_status_mono (n : ℕ) (h : 1 ≤ n) :
    statusRank (quarter_status n) ≤ statusRank (quarter_status (n + 1)) := by
  rcases Nat.lt_or_ge n 5 with h5 | h5
  · interval_cases n <;> decide
  · have hn : quarter_status n = "Finished" := if_pos (by omega)
    have hn1 : quarter_status (n + 1) = "Finished" := if_pos (by omega)
    rw [hn, hn1]

/-- C5: `close_quarter` sets the next quarter counter to `current + 1` and
derives the status "Finished" exactly when the next quarter exceeds 4
(otherwise "Q<next>"), so a status consistent with its counter never
regresses along Q1 → Q2 → Q3 → Q4 → Finished; when the counter has reached 4
the endpoint performs no further question assignment, and no operation
(close, assign, submit decision, submit answer) leaves the Finished state. -/
theorem game_status_forward_spec (session : Session) (rs rs' : List ℕ)
    (now : ℤ) (s' : Session) :
    (close_quarter session rs = some s' →
      s'.current_quarter = session.current_quarter + 1 ∧
      s'.game_status = quarter_status (session.current_quarter + 1) ∧
      (session.game_status = quarter_status session.current_quarter →
        1 ≤ session.current_quarter →
        statusRank session.game_status ≤ statusRank s'.game_status)) ∧
    (4 ≤ session.current_quarter → close_quarter session rs = some s' →
      s'.game_status = "Finished") ∧
    (4 ≤ session.current_quarter →
      api_close_quarter session rs rs' now = close_quarter session rs) ∧
    ((assign_quarter_questions session rs).game_status = session.game_status) ∧
    (∀ cid p pr m s₂, submit_decision session cid p pr m = some s₂ →
      s₂.game_status = session.game_status) ∧
    (∀ cid oid s₂, submit_answer session cid oid = some s₂ →
      s₂.game_status = session.game_status) := by
  have hclose : ∀ u : Session, close_quarter session rs = some u →
      u.current_quarter = session.current_quarter + 1 ∧
      u.game_status = quarter_status (session.current_quarter + 1) := by
    intro u hu
    unfold close_quarter at hu
    cases hc : close_companies session.companies rs with
    | none => rw [hc] at hu; exact Option.noConfusion hu
    | some updated =>
      rw [hc] at hu
      simp only [Option.map_some', Option.some.injEq] at hu
      subst hu
      exact ⟨rfl, rfl⟩
  have hfin : ∀ u : Session, 4 ≤ session.current_quarter →
      close_quarter session rs = some u → u.game_status = "Finished" := by
    intro u h4 hu
    rw [(hclose u hu).2]
    exact if_pos (by omega)
  refine ⟨?_, hfin s', ?_, rfl, ?_, ?_⟩
  · intro hu
    obtain ⟨h1, h2⟩ := hclose s' hu
    refine ⟨h1, h2, ?_⟩
    intro hst hq
    rw [hst, h2]
    exact statusRank_quarter_status_mono session.current_quarter hq
  · intro h4
    unfold api_close_quarter
    cases hc : close_quarter session rs with
    | none => rfl
    | some u =>
      simp only [Option.map_some', Option.some.injEq]
      rw [if_neg]
      simp only [ne_eq, not_not]
      exact hfin u h4 hc
  · intro cid p pr m s₂ h
    unfold submit_decision at h
    cases hc : List.lookup cid session.companies with
    | none => rw [hc] at h; exact Option.noConfusion h
    | some c =>
      rw [hc] at h
      injection h with h
      subst h
      rfl
  · intro cid oid s₂ h
    unfold submit_answer at h
    cases hc : List.lookup cid session.companies with
    | none => rw [hc] at h; exact Option.noConfusion h
    | some c =>
      rw [hc] at h
      injection h with h
      subst h
      rfl

/-- Closed instance of C5 at a concrete quarter-4 session: closing yields the
Finished status, the endpoint performs no new assignment, and assignment
preserves the status. -/
theorem game_status_forward_spec_witness :
    (∃ s', close_quarter testSessionQ4 [0] = some s' ∧
      s'.game_status = "Finished") ∧
    api_close_quarter testSessionQ4 [0] [0] 0 = close_quarter testSessionQ4 [0] ∧
    (assign_quarter_questions testSessionQ4 [0]).game_status =
      testSessionQ4.game_status := by
  obtain ⟨u, hu⟩ : ∃ u, close_quarter testSessionQ4 [0] = some u := ⟨_, rfl⟩
  refine ⟨⟨u, hu, ?_⟩, ?_, ?_⟩
  · exact (game_status_forward_spec testSessionQ4 [0] [0] 0 u).2.1
      (by norm_num [testSessionQ4]) hu
  · exact (game_status_forward_spec testSessionQ4 [0] [0] 0 u).2.2.1
      (by norm_num [testSessionQ4])
  · exact (game_status_forward_spec testSessionQ4 [0] [0] 0 u).2.2.2.1

/-- Helper: the output of the Decision Impact Transform always carries the
three required keys and no others, so the `Decision` construction from it
always succeeds. -/
theorem mkDecision_apply_isSome (d : NumDict) (opt : QuestionOption) :
    (mkDecision (apply_option_impact d opt)).isSome = true := rfl

/-- Helper: closing a single company succeeds as soon as it has a financial
history and either a well-formed pending decision dict or a valid selected
option on its active question (whose transform then builds a well-formed
dict), and then appends exactly one snapshot. -/
theorem close_company_total (c : Company) (r : ℕ) (h1 : c.financials ≠ [])
    (h2 : (mkDecision c.decisions).isSome = true ∨
      ∃ qid, c.active_question_id = some qid ∧
        (resolve_selected_option qid c.selected_option_id).isSome = true) :
    ∃ c', close_company c r = some c' ∧
      c'.financials.length = c.financials.length + 1 := by
  obtain ⟨previous, hprev⟩ : ∃ p, c.financials.getLast? = some p := by
    cases hl : c.financials.getLast? with
    | none => exact absurd (List.getLast?_eq_none_iff.mp hl) h1
    | some p => exact ⟨p, rfl⟩
  have heff : (mkDecision (resolve_effective_decision c.decisions
      (c.active_question_id.getD (pick_random_question r []).id)
      c.selected_option_id)).isSome = true := by
    unfold resolve_effective_decision
    cases hr : resolve_selected_option
        (c.active_question_id.getD (pick_random_question r []).id)
        c.selected_option_id with
    | none =>
      rcases h2 with h2 | ⟨qid, hq, hsome⟩
      · exact h2
      · exfalso
        have hgd : c.active_question_id.getD (pick_random_question r []).id = qid := by
          rw [hq]
          rfl
        rw [← hgd, hr] at hsome
        simp at hsome
    | some opt => exact mkDecision_apply_isSome c.decisions opt
  obtain ⟨dec, hdec⟩ := Option.isSome_iff_exists.mp heff
  have hsim : simulate_quarter previous
      (resolve_effective_decision c.decisions
        (c.active_question_id.getD (pick_random_question r []).id)
        c.selected_option_id) = some (simulate_quarter_core previous dec) := by
    unfold simulate_quarter
    rw [hdec]
    rfl
  have hclose : close_company c r = some
      { name := c.name
        financials := c.financials ++ [simulate_quarter_core previous dec]
        decisions := []
        agent_chat := c.agent_chat
        active_question_id := none
        selected_option_id := none
        question_history :=
          if c.question_history = [] ∨ c.question_history.getLast? ≠
              some (c.active_question_id.getD (pick_random_question r []).id) then
            c.question_history ++
              [c.active_question_id.getD (pick_random_question r []).id]
          else c.question_history } := by
    unfold close_company
    rw [hprev]
    simp only [hsim]
  refine ⟨_, hclose, ?_⟩
  simp

/-- Helper: the company loop of `close_quarter` succeeds on any list of
companies that each have a history and either a well-formed decision or a
valid selected option, pairing every input company with an output company of
the same key and one more snapshot. -/
theorem close_companies_total (companies : List (String × Company)) (rs : List ℕ)
    (h : ∀ p ∈ companies, p.2.financials ≠ [] ∧
      ((mkDecision p.2.decisions).isSome = true ∨
        ∃ qid, p.2.active_question_id = some qid ∧
          (resolve_selected_option qid p.2.selected_option_id).isSome = true)) :
    ∃ l, close_companies companies rs = some l ∧
      List.Forall₂ (fun a b => a.1 = b.1 ∧
        b.2.financials.length = a.2.financials.length + 1) companies l := by
  induction companies generalizing rs with
  | nil => exact ⟨[], rfl, List.Forall₂.nil⟩
  | cons p rest ih =>
    obtain ⟨cid, c⟩ := p
    obtain ⟨c', hc', hlen⟩ := close_company_total c (rs.headD 0)
      (h (cid, c) (List.mem_cons_self _ _)).1
      (h (cid, c) (List.mem_cons_self _ _)).2
    obtain ⟨l, hl, hfa⟩ := ih rs.tail (fun q hq => h q (List.mem_cons_of_mem _ hq))
    refine ⟨(cid, c') :: l, ?_, List.Forall₂.cons ⟨rfl, hlen⟩ hfa⟩
    unfold close_companies
    rw [hc', hl]

/-- C9 counterexample: a session present in the store whose (only) company
never submitted a decision for the quarter — its pending decision dict is
empty and no option was selected — makes `close_quarter` fail (the Python
`Decision(**decision)` constructor raises `TypeError`) instead of returning a
new session state. -/
theorem close_quarter_empty_decision_counterexample :
    close_quarter emptyDecisionSession [0] = none ∧
    List.lookup "delta" emptyDecisionSession.companies =
      some emptyDecisionCompany ∧
    emptyDecisionCompany.decisions = [] ∧
    emptyDecisionCompany.financials = [seedState] := ⟨rfl, rfl, rfl, rfl⟩

/-- C9 (amended): `close_quarter` returns a valid new session state for every
session whose companies each have a nonempty financial history and either a
well-formed (three-field) pending decision dict or a valid selected option on
their active question (whose transform always builds a well-formed dict);
with an empty pending decision and no resolvable option the decision
construction fails instead (see the counterexample). -/
theorem close_quarter_total_for_wellformed (session : Session) (rs : List ℕ)
    (h : ∀ p ∈ session.companies, p.2.financials ≠ [] ∧
      ((mkDecision p.2.decisions).isSome = true ∨
        ∃ qid, p.2.active_question_id = some qid ∧
          (resolve_selected_option qid p.2.selected_option_id).isSome = true)) :
    ∃ s', close_quarter session rs = some s' := by
  obtain ⟨l, hl, _⟩ := close_companies_total session.companies rs h
  refine ⟨{ session with
      game_status := if session.current_quarter + 1 > 4 then "Finished"
        else "Q" ++ toString (session.current_quarter + 1)
      current_quarter := session.current_quarter + 1
      companies := l }, ?_⟩
  unfold close_quarter
  rw [hl]
  rfl

/-- Closed instance of the amended C9 at a concrete session with two
companies, one closeable through its submitted decision and one with an empty
pending decision rescued by its valid selected option. -/
theorem close_quarter_total_for_wellformed_witness :
    ∃ s', close_quarter rescuedSession [0, 0] = some s' := by
  apply close_quarter_total_for_wellformed
  rintro p hp
  rcases List.mem_cons.mp hp with rfl | hp
  · exact ⟨List.cons_ne_nil _ _, Or.inl rfl⟩
  · rcases List.mem_singleton.mp hp with rfl
    exact ⟨List.cons_ne_nil _ _, Or.inr ⟨"q01", rfl, rfl⟩⟩

/-- C10 counterexample: `close_quarter` does not succeed on every session
whose quarter counter is 5 or more: on the natural post-Finished session —
every company's pending decision was cleared to the empty dict and its
selected option to none by the final close — it fails (the `TypeError` of
`Decision(**{})`) instead of succeeding. -/
theorem close_quarter_after_finished_counterexample :
    5 ≤ finishedEmptySession.current_quarter ∧
    finishedEmptyCompany.decisions = [] ∧
    finishedEmptyCompany.selected_option_id = none ∧
    close_quarter finishedEmptySession [0] = none :=
  ⟨by decide, rfl, rfl, rfl⟩

/-- C10 (amended): `close_quarter` is not guarded against an already-finished
game: on any session whose quarter counter is 5 or more and whose companies
are still closeable (nonempty financial history and a well-formed pending
decision or a valid selected option, cf. C9), it still succeeds, increments
the counter past 5, appends exactly one snapshot to every company's financial
history, and recomputes the status as "Finished". -/
theorem close_quarter_unguarded_after_finished (session : Session)
    (rs : List ℕ) (hq : 5 ≤ session.current_quarter)
    (h : ∀ p ∈ session.companies, p.2.financials ≠ [] ∧
      ((mkDecision p.2.decisions).isSome = true ∨
        ∃ qid, p.2.active_question_id = some qid ∧
          (resolve_selected_option qid p.2.selected_option_id).isSome = true)) :
    ∃ s', close_quarter session rs = some s' ∧
      s'.current_quarter = session.current_quarter + 1 ∧
      s'.game_status = "Finished" ∧
      List.Forall₂ (fun a b => a.1 = b.1 ∧
        b.2.financials.length = a.2.financials.length + 1)
        session.companies s'.companies := by
  obtain ⟨l, hl, hfa⟩ := close_companies_total session.companies rs h
  refine ⟨{ session with
      game_status := if session.current_quarter + 1 > 4 then "Finished"
        else "Q" ++ toString (session.current_quarter + 1)
      current_quarter := session.current_quarter + 1
      companies := l }, ?_, rfl, ?_, hfa⟩
  · unfold close_quarter
    rw [hl]
    rfl
  · exact if_pos (by omega)

/-- Closed instance of C10 at a concrete finished session (quarter counter
5): the counter moves to 6 and a sixth snapshot would be appended. -/
theorem close_quarter_unguarded_after_finished_witness :
    ∃ s', close_quarter testSessionFinished [0] = some s' ∧
      s'.current_quarter = testSessionFinished.current_quarter + 1 ∧
      s'.game_status = "Finished" ∧
      List.Forall₂ (fun a b => a.1 = b.1 ∧
        b.2.financials.length = a.2.financials.length + 1)
        testSessionFinished.companies s'.companies := by
  apply close_quarter_unguarded_after_finished
  · norm_num [testSessionFinished]
  · rintro p hp
    rcases List.mem_singleton.mp hp with rfl
    exact ⟨List.cons_ne_nil _ _, Or.inl rfl⟩

end FinanzaSim
